import Mathlib

/-!
# AgentX Orchestration Execution Engine — verification development

Shallow embedding of `src/be/app/orchestration/service.py` (class
`OrchestrationService`), the chat-record store it writes through
(`src/be/app/agent/agent.py`, `ChatRecordService`), and the background
wrapper in `src/be/app/routers/orchestration.py`, together with proofs
of the spec-level properties about them.

Modelling conventions:
* DynamoDB tables are association lists keyed as in the source
  (`ChatRecordTable` keyed by the partition/sort pair `(user_id, id)`,
  `put_item` is an upsert on that key).
* `datetime.now().isoformat()` / `time.time()` values are opaque strings
  supplied by the caller (`now`, `time k`); no proved property depends
  on their contents.
* `asyncio` tasks are modelled by an explicit outcome parameter: the
  topology-executor task either completes with a result, raises an
  exception whose `str(e)` is `m`, or raises `CancelledError`; the
  cancellation event's state at the supervisor's race point is a boolean
  parameter.  A Python exception escaping a function is an
  `Except`-style error value (`CancelledError` is kept distinct from
  ordinary `Exception`s because `except Exception` does not catch it).
* Python floats are modelled by their rational value.  `Decimal(str(f))`
  denotes a decimal numeral whose value rounds back to `f` (CPython's
  shortest-repr round-trip guarantee for finite floats), so the
  float→Decimal→float leaf composition is the identity; both leaf
  conversions are modelled value-level on `ℚ`.
* Python's `list.sort` is a stable sort; it is modelled by
  `List.insertionSort` with a reflexive relation (`msgLE` ascending,
  `prioGE` descending), which inserts each element before later-listed
  elements of equal key — exactly Python's stable order.
* `AgentPOService.get_agent` (agent.py 231) takes two required
  parameters `(user_id, id)`, but every call in the orchestration
  service passes a single argument (service.py 636, 696, 777, 894,
  908), so each such call raises `TypeError` at argument-binding time;
  the workflow and agents-as-tools executors are modelled with that
  behavior (`get_agent_TypeError`), and the code they would run after a
  successful resolution is embedded separately
  (`workflow_node_order`, `run_workflow_nodes`) as the faithful
  translation of those — unreachable — lines.
-/

namespace AgentX

/-! ## Python values and the Decimal converters
(`src/be/app/orchestration/service.py` lines 15–52)

Python lists and dicts are modelled by the mutually inductive cons-list
types `PyList` / `PyDict` (a dict is its ordered key/value sequence). -/

mutual

inductive PyVal where
  | str (s : String)
  | int (n : Int)
  | boolean (b : Bool)
  | pynone
  | float (q : ℚ)
  | dec (q : ℚ)
  | list (xs : PyList)
  | dict (kvs : PyDict)
  deriving DecidableEq

inductive PyList where
  | nil
  | cons (head : PyVal) (tail : PyList)
  deriving DecidableEq

inductive PyDict where
  | nil
  | cons (key : String) (value : PyVal) (tail : PyDict)
  deriving DecidableEq

end

mutual

/-- `convert_floats_to_decimal` (service.py 15–32): recursively convert
float values to `Decimal` for DynamoDB compatibility.  The leaf case
`Decimal(str(obj))` is modelled value-level (see module header). -/
def convert_floats_to_decimal : PyVal → PyVal
  | .dict kvs => .dict (cf2d_dict kvs)
  | .list xs => .list (cf2d_list xs)
  | .float q => .dec q
  | v => v

/-- The list comprehension of `convert_floats_to_decimal`. -/
def cf2d_list : PyList → PyList
  | .nil => .nil
  | .cons x xs => .cons (convert_floats_to_decimal x) (cf2d_list xs)

/-- The dict comprehension of `convert_floats_to_decimal`. -/
def cf2d_dict : PyDict → PyDict
  | .nil => .nil
  | .cons k v kvs => .cons k (convert_floats_to_decimal v) (cf2d_dict kvs)

end

mutual

/-- `convert_decimals_to_float` (service.py 35–52): recursively convert
`Decimal` values back to float for frontend compatibility.  The leaf
case `float(obj)` is modelled value-level. -/
def convert_decimals_to_float : PyVal → PyVal
  | .dict kvs => .dict (cd2f_dict kvs)
  | .list xs => .list (cd2f_list xs)
  | .dec q => .float q
  | v => v

/-- The list comprehension of `convert_decimals_to_float`. -/
def cd2f_list : PyList → PyList
  | .nil => .nil
  | .cons x xs => .cons (convert_decimals_to_float x) (cd2f_list xs)

/-- The dict comprehension of `convert_decimals_to_float`. -/
def cd2f_dict : PyDict → PyDict
  | .nil => .nil
  | .cons k v kvs => .cons k (convert_decimals_to_float v) (cd2f_dict kvs)

end

mutual

/-- A value is JSON-like when it is built only from dicts, lists,
strings, ints, bools, `None` and floats — i.e. it contains no `Decimal`
leaf (the domain of values as they exist before any store write). -/
def jsonLike : PyVal → Bool
  | .dict kvs => jsonLike_dict kvs
  | .list xs => jsonLike_list xs
  | .dec _ => false
  | _ => true

/-- `jsonLike` on lists. -/
def jsonLike_list : PyList → Bool
  | .nil => true
  | .cons x xs => jsonLike x && jsonLike_list xs

/-- `jsonLike` on dicts. -/
def jsonLike_dict : PyDict → Bool
  | .nil => true
  | .cons _ v kvs => jsonLike v && jsonLike_dict kvs

end

mutual

/-- Round-trip helper: on JSON-like values the two converters compose to
the identity. -/
theorem convert_roundtrip_val : ∀ (v : PyVal), jsonLike v = true →
    convert_decimals_to_float (convert_floats_to_decimal v) = v
  | .str _, _ => rfl
  | .int _, _ => rfl
  | .boolean _, _ => rfl
  | .pynone, _ => rfl
  | .float _, _ => rfl
  | .dec _, h => by simp [jsonLike] at h
  | .list xs, h => by
      simp only [convert_floats_to_decimal, convert_decimals_to_float, PyVal.list.injEq]
      exact convert_roundtrip_list xs (by simpa [jsonLike] using h)
  | .dict kvs, h => by
      simp only [convert_floats_to_decimal, convert_decimals_to_float, PyVal.dict.injEq]
      exact convert_roundtrip_dict kvs (by simpa [jsonLike] using h)

/-- Round-trip helper for lists. -/
theorem convert_roundtrip_list : ∀ (xs : PyList), jsonLike_list xs = true →
    cd2f_list (cf2d_list xs) = xs
  | .nil, _ => rfl
  | .cons x xs, h => by
      simp only [jsonLike_list, Bool.and_eq_true] at h
      simp only [cf2d_list, cd2f_list, PyList.cons.injEq]
      exact ⟨convert_roundtrip_val x h.1, convert_roundtrip_list xs h.2⟩

/-- Round-trip helper for dicts. -/
theorem convert_roundtrip_dict : ∀ (kvs : PyDict), jsonLike_dict kvs = true →
    cd2f_dict (cf2d_dict kvs) = kvs
  | .nil, _ => rfl
  | .cons k v kvs, h => by
      simp only [jsonLike_dict, Bool.and_eq_true] at h
      simp only [cf2d_dict, cd2f_dict, PyDict.cons.injEq]
      exact ⟨trivial, convert_roundtrip_val v h.1, convert_roundtrip_dict kvs h.2⟩

end

/-! ## Persisted records and the chat-record store
(`src/be/app/agent/agent.py` lines 860–972) -/

/-- `ChatRecord` (agent.py 860–873): the persisted record backing both
chats and orchestration executions.  `config`/`results` are Python
dicts, modelled as `PyVal`. -/
structure ChatRecord where
  id : String
  agent_id : String
  user_id : String
  user_message : String
  create_time : String
  record_type : String := "agent"
  config : Option PyVal := none
  status : Option String := none
  end_time : Option String := none
  results : Option PyVal := none
  error : Option String := none
  deriving DecidableEq

/-- `ChatResponse` (agent.py 876–880): one transcript entry. -/
structure ChatResponse where
  chat_id : String
  resp_no : Int
  content : String
  create_time : String
  deriving DecidableEq

/-- The `ChatRecordTable`: an association list keyed by the DynamoDB
partition/sort pair `(user_id, id)`. -/
abbrev ChatTable := List ((String × String) × ChatRecord)

/-- `get_item` on the chat-record table: first entry with the given key. -/
def table_get (t : ChatTable) (k : String × String) : Option ChatRecord :=
  (t.find? fun e => decide (e.1 = k)).map (·.2)

/-- `put_item` on the chat-record table: upsert on the key. -/
def table_put (t : ChatTable) (k : String × String) (r : ChatRecord) : ChatTable :=
  match t with
  | [] => [(k, r)]
  | e :: es => if e.1 = k then (k, r) :: es else e :: table_put es k r

/-- `ChatRecordService.get_chat_record` (agent.py 956–972): look the id
up under the caller's partition key, then under `'public'`. -/
def get_chat_record (t : ChatTable) (user_id id : String) : Option ChatRecord :=
  match table_get t (user_id, id) with
  | some r => some r
  | none => table_get t ("public", id)

/-- `ChatRecordService.add_chat_record` (agent.py 917–954): `put_item`
keyed by `(record.user_id, record.id)`.  (The source's fresh-uuid branch
for an empty `record.id` is omitted: every orchestration-service call
site passes a record with its id already set.) -/
def add_chat_record (t : ChatTable) (r : ChatRecord) : ChatTable :=
  table_put t (r.user_id, r.id) r

/-! ## The orchestration data model (`src/be/app/orchestration/models.py`) -/

/-- `OrchestrationNode` (models.py 5–16), restricted to the fields the
execution engine reads (`displayName`, `description`, `position` and the
embedded configs are never consulted by the executors). -/
structure OrchestrationNode where
  id : String
  type : String
  name : String
  agentId : Option String := none
  deriving DecidableEq

/-- `OrchestrationEdge` (models.py 18–23), restricted to the fields the
execution engine reads. -/
structure OrchestrationEdge where
  id : String
  source : String
  target : String
  deriving DecidableEq

/-- `OrchestrationConfig` (models.py 26–62), restricted to the fields
the execution engine reads (timeouts/handoff caps are forwarded opaquely
to the external Strands runtime; `name`, `userId` and the metadata
fields are never consulted by the executors).  `taskPriorities` is the
optional Python dict `nodeId → int`, modelled as its key/value list. -/
structure OrchestrationConfig where
  id : Option String := none
  type : String
  nodes : List OrchestrationNode
  edges : List OrchestrationEdge := []
  entryPoint : Option String := none
  taskPriorities : Option (List (String × Int)) := none
  orchestratorAgent : Option String := none
  deriving DecidableEq

/-- `OrchestrationExecution` (models.py 64–75); `nodeHistory` is never
consulted by the engine and is omitted. -/
structure OrchestrationExecution where
  id : String
  orchestrationId : String
  userId : String
  status : String
  startTime : String
  endTime : Option String := none
  inputMessage : String
  results : Option PyVal := none
  errorMessage : Option String := none
  deriving DecidableEq

/-! ## The orchestration service state
(`src/be/app/orchestration/service.py` lines 55–63) -/

/-- The mutable state touched by `OrchestrationService`: the two
DynamoDB tables it writes through `ChatRecordService`, and the two
process-local registries `running_tasks` / `cancellation_events`.
`running_tasks` maps an execution id to the task's `done()` flag;
`cancellation_events` maps an execution id to the event's `is_set()`
flag.  `responses` is the append log of `add_chat_response` writes
(`put_item` on the `ChatResponseTable`; resp_no keys written by one
execution are distinct, so the log order is the table content).
`status_writes` is a pure history variable recording one entry per
successful `update_execution_status`, used to state ordering
properties; it has no effect on any computation. -/
structure StatusWrite where
  execution_id : String
  status : String
  errorMessage : Option String := none
  deriving DecidableEq

structure ServiceState where
  chat_table : ChatTable
  responses : List ChatResponse := []
  running_tasks : List (String × Bool) := []
  cancellation_events : List (String × Bool) := []
  status_writes : List StatusWrite := []
  deriving DecidableEq

/-- Registry lookup (`id in d` / `d[id]`). -/
def lookupFlag (l : List (String × Bool)) (k : String) : Option Bool :=
  (l.find? fun e => decide (e.1 = k)).map (·.2)

/-- Registry upsert (`d[id] = flag`). -/
def setFlag (l : List (String × Bool)) (k : String) (b : Bool) : List (String × Bool) :=
  match l with
  | [] => [(k, b)]
  | e :: es => if e.1 = k then (k, b) :: es else e :: setFlag es k b

/-- Registry delete (`del d[id]`). -/
def removeKey (l : List (String × Bool)) (k : String) : List (String × Bool) :=
  l.filter fun e => decide (e.1 ≠ k)

/-! ## Execution CRUD (`src/be/app/orchestration/service.py` 272–407) -/

/-- `_chat_record_to_execution` (service.py 536–564). -/
def chat_record_to_execution : Option ChatRecord → Option OrchestrationExecution
  | none => none
  | some r =>
    if r.record_type ≠ "orchestration" then none
    else some {
      id := r.id
      orchestrationId := r.agent_id
      userId := r.user_id
      status := r.status.getD "pending"
      startTime := r.create_time
      inputMessage := r.user_message
      endTime := r.end_time
      results := r.results
      errorMessage := r.error }

/-- `get_execution` (service.py 272–290). -/
def get_execution (s : ServiceState) (execution_id user_id : String) :
    Option OrchestrationExecution :=
  chat_record_to_execution (get_chat_record s.chat_table user_id execution_id)

/-- The `**kwargs` accepted by `update_execution_status`: a field is
`some x` when the caller passed it and `none` when the caller omitted it
(`kwargs.get(key, old)` then keeps the old value). -/
structure UpdateKwargs where
  endTime : Option String := none
  results : Option PyVal := none
  errorMessage : Option String := none

/-- The rebuilt `ChatRecord` of `update_execution_status`
(service.py 313–325): same identity fields, the new status, and the
kwargs-or-old `end_time`, `results`, `error`. -/
def updatedRecord (r : ChatRecord) (status : String) (kwargs : UpdateKwargs) : ChatRecord :=
  { id := r.id
    agent_id := r.agent_id
    user_id := r.user_id
    user_message := r.user_message
    create_time := r.create_time
    record_type := r.record_type
    config := r.config
    status := some status
    end_time := kwargs.endTime.orElse fun _ => r.end_time
    results := kwargs.results.orElse fun _ => r.results
    error := kwargs.errorMessage.orElse fun _ => r.error }

/-- `update_execution_status` (service.py 292–330): re-read the record;
fail (return `false`) when it is absent or not an orchestration record;
otherwise save the rebuilt record. -/
def update_execution_status (s : ServiceState) (execution_id status user_id : String)
    (kwargs : UpdateKwargs) : ServiceState × Bool :=
  match get_chat_record s.chat_table user_id execution_id with
  | none => (s, false)
  | some r =>
    if r.record_type ≠ "orchestration" then (s, false)
    else
      ({ s with
          chat_table := add_chat_record s.chat_table (updatedRecord r status kwargs)
          status_writes :=
            s.status_writes ++ [⟨execution_id, status, kwargs.errorMessage⟩] }, true)

/-- `stop_execution` (service.py 332–374): verify visibility, set the
cancellation event if registered, cancel and drop the running task if
registered (`task.cancel()` itself has no modelled effect), drop the
event, then write `status="failed"`, `errorMessage="Execution stopped by
user"`, `endTime=now`, returning that write's result. -/
def stop_execution (s : ServiceState) (execution_id user_id now : String) :
    ServiceState × Bool :=
  match get_execution s execution_id user_id with
  | none => (s, false)
  | some _ =>
    let s1 :=
      if (lookupFlag s.cancellation_events execution_id).isSome then
        { s with cancellation_events := setFlag s.cancellation_events execution_id true }
      else s
    let s2 :=
      if (lookupFlag s1.running_tasks execution_id).isSome then
        { s1 with running_tasks := removeKey s1.running_tasks execution_id }
      else s1
    let s3 :=
      if (lookupFlag s2.cancellation_events execution_id).isSome then
        { s2 with cancellation_events := removeKey s2.cancellation_events execution_id }
      else s2
    update_execution_status s3 execution_id "failed" user_id
      { endTime := some now, errorMessage := some "Execution stopped by user" }

/-! ## The execution supervisor
(`src/be/app/orchestration/service.py` 411–534, and
`src/be/app/routers/orchestration.py` 222–239) -/

/-- `_cleanup_execution` (service.py 529–534): drop both registry
entries for the id when present. -/
def cleanup_execution (s : ServiceState) (execution_id : String) : ServiceState :=
  { s with
      running_tasks := removeKey s.running_tasks execution_id
      cancellation_events := removeKey s.cancellation_events execution_id }

/-- How the topology-executor task behaves once awaited: it completes
with a result, raises an exception whose `str(e)` is `msg`, or raises
`asyncio.CancelledError`.  The executors' own behavior is proved
separately; the supervisor treats the task as opaque. -/
inductive TaskOutcome where
  | completes (results : PyVal)
  | raises (msg : String)
  | cancelled
  deriving DecidableEq

/-- How a call to `execute_orchestration` ends for its caller: a
returned result, a propagated `asyncio.CancelledError`, or a propagated
ordinary exception with message `msg`. -/
inductive ExecOutcome where
  | ok (results : PyVal)
  | raisedCancelled
  | raisedExn (msg : String)
  deriving DecidableEq

/-- The four orchestration types dispatched at service.py 436–451. -/
def supportedTypes : List String := ["swarm", "graph", "workflow", "agents_as_tools"]

/-- `execute_orchestration` (service.py 411–527).  `cancelSet` says
whether the cancellation event is set when the
`asyncio.wait(FIRST_COMPLETED)` race returns (i.e. whether
`stop_execution`, which sets the event through the reference the
supervisor already holds, fired first); `outcome` is the awaited task's
behavior; `now` stands for the `datetime.now().isoformat()` values taken
in this call.  Control flow mirrored from the source:

* register a fresh (unset) cancellation event; write `status=running`;
* unknown type ⇒ `ValueError` caught by `except Exception`: cleanup,
  write `failed` with the `Unsupported orchestration type` message,
  re-raise;
* cancellation observed ⇒ cancel/await the task, cleanup, write `failed`
  / `"Execution cancelled by user"`, then
  `raise asyncio.CancelledError(...)` — which the enclosing
  `except asyncio.CancelledError` of the same `try` catches: cleanup
  again and overwrite with `failed` / `"Execution cancelled"`, re-raise;
* task completed ⇒ cleanup, write `completed` with results, return them;
* task raised `e` ⇒ `except Exception`: cleanup, write `failed` /
  `str(e)`, re-raise;
* task raised `CancelledError` ⇒ `except CancelledError`: cleanup,
  write `failed` / `"Execution cancelled"`, re-raise. -/
def execute_orchestration (s : ServiceState) (execution : OrchestrationExecution)
    (cfg : OrchestrationConfig) (outcome : TaskOutcome) (cancelSet : Bool)
    (now : String) : ServiceState × ExecOutcome :=
  let execution_id := execution.id
  let s := { s with
    cancellation_events := setFlag s.cancellation_events execution_id false }
  let s := (update_execution_status s execution_id "running" execution.userId {}).1
  if cfg.type ∈ supportedTypes then
    let s := { s with running_tasks := setFlag s.running_tasks execution_id false }
    let s :=
      if cancelSet then
        { s with cancellation_events := setFlag s.cancellation_events execution_id true }
      else s
    if cancelSet then
      let s := cleanup_execution s execution_id
      let s := (update_execution_status s execution_id "failed" execution.userId
        { endTime := some now, errorMessage := some "Execution cancelled by user" }).1
      let s := cleanup_execution s execution_id
      let s := (update_execution_status s execution_id "failed" execution.userId
        { endTime := some now, errorMessage := some "Execution cancelled" }).1
      (s, .raisedCancelled)
    else
      match outcome with
      | .completes results =>
        let s := cleanup_execution s execution_id
        let s := (update_execution_status s execution_id "completed" execution.userId
          { endTime := some now, results := some results }).1
        (s, .ok results)
      | .raises m =>
        let s := cleanup_execution s execution_id
        let s := (update_execution_status s execution_id "failed" execution.userId
          { endTime := some now, errorMessage := some m }).1
        (s, .raisedExn m)
      | .cancelled =>
        let s := cleanup_execution s execution_id
        let s := (update_execution_status s execution_id "failed" execution.userId
          { endTime := some now, errorMessage := some "Execution cancelled" }).1
        (s, .raisedCancelled)
  else
    let msg := "Unsupported orchestration type: " ++ cfg.type
    let s := cleanup_execution s execution_id
    let s := (update_execution_status s execution_id "failed" execution.userId
      { endTime := some now, errorMessage := some msg }).1
    (s, .raisedExn msg)

/-- `execute_orchestration_in_background`
(`src/be/app/routers/orchestration.py` 222–239): awaits
`execute_orchestration` under `except asyncio.CancelledError` and
`except Exception` handlers that both swallow the fault, so the second
component — the fault that escapes to the event loop — is `none` in
every case. -/
def execute_orchestration_in_background (s : ServiceState)
    (execution : OrchestrationExecution) (cfg : OrchestrationConfig)
    (outcome : TaskOutcome) (cancelSet : Bool) (now : String) :
    ServiceState × Option String :=
  match execute_orchestration s execution cfg outcome cancelSet now with
  | (s', .ok _) => (s', none)
  | (s', .raisedCancelled) => (s', none)
  | (s', .raisedExn _) => (s', none)

/-! ## The result normalizer
(`_extract_and_store_multiagent_result`, service.py 566–620)

The marker type `τ` of `execution_time` is a parameter: swarm/graph
node results carry numbers, the workflow's ad-hoc wrappers carry
strings; Python sorts whichever type the entries carry. -/

/-- One entry of `result.results`: a node id together with the node
result's `get_agent_results()` rendered by `str(...)`, and its
`execution_time` attribute (`getattr(node_result, "execution_time", 0)`
— the workflow/agents-as-tools wrappers always define it). -/
structure NodeRes (τ : Type) where
  node_id : String
  agent_texts : List String
  execution_time : τ
  deriving DecidableEq

/-- `str.strip()` on the characters of a Python string: drop leading and
trailing whitespace.  (`Char.isWhitespace` covers the ASCII whitespace
of the texts this engine handles.) -/
def stripChars (cs : List Char) : List Char :=
  (((cs.dropWhile Char.isWhitespace).reverse).dropWhile Char.isWhitespace).reverse

/-- `message_content.strip()` (service.py 591–595). -/
def pyStrip (s : String) : String := ⟨stripChars s.data⟩

/-- One element of the `node_results` list built at service.py 578–601:
the stripped non-empty message of one agent result. -/
structure PendingMsg (τ : Type) where
  node_id : String
  message : String
  execution_time : τ
  create_time : String
  deriving DecidableEq

/-- The collection loop (service.py 580–601): walk the node results in
dict order, walk each node's agent results in order, keep the stripped
text when it is non-empty (Python string truthiness of
`message_content.strip()`). -/
def collect_node_results (now : String) : List (NodeRes τ) → List (PendingMsg τ)
  | [] => []
  | nr :: rest =>
    (nr.agent_texts.filterMap fun t =>
      if pyStrip t ≠ "" then some ⟨nr.node_id, pyStrip t, nr.execution_time, now⟩ else none)
      ++ collect_node_results now rest

/-- The ascending key order `node_results.sort(key=λx: x["execution_time"])`
sorts by (service.py 604).  Python's `list.sort` is stable; Mathlib's
`insertionSort` with this reflexive relation inserts each element before
the later-listed elements of equal key, which is exactly stable
ascending order. -/
def msgLE [LinearOrder τ] (a b : PendingMsg τ) : Prop :=
  a.execution_time ≤ b.execution_time

instance [LinearOrder τ] : DecidableRel (msgLE (τ := τ)) := fun a b =>
  inferInstanceAs (Decidable (a.execution_time ≤ b.execution_time))

/-- `_extract_and_store_multiagent_result` (service.py 566–620): collect
the messages, sort them ascending by execution-time marker, then store
each as a `ChatResponse` with `resp_no = i + 1` in that order.  (The
enclosing `try/except` only swallows exceptions of the store calls,
which the model treats as total.) -/
def extract_and_store_multiagent_result [LinearOrder τ] (s : ServiceState)
    (results : List (NodeRes τ)) (execution_id now : String) : ServiceState :=
  let node_results := (collect_node_results now results).insertionSort msgLE
  let stored := node_results.enum.map fun (i, m) =>
    ChatResponse.mk execution_id ((i : Int) + 1) m.message m.create_time
  { s with responses := s.responses ++ stored }

/-! ## Topology executor: workflow (service.py 763–876) -/

/-- Outcome of one `await agent.invoke_async(input)` call of the Agent
Runtime: the textual result `str(result)`, or a raised exception whose
`str(e)` is `msg`. -/
inductive InvokeResult where
  | ok (text : String)
  | raises (msg : String)
  deriving DecidableEq

/-- One value of the per-node result map `workflow_results`
(service.py 820–835). -/
structure WNodeResult where
  result : String
  execution_time : String
  status : String
  deriving DecidableEq

/-- `str(e)` of the `TypeError` raised by every one-argument call
`agent_service.get_agent(...)` in the orchestration service
(service.py 636, 696, 777, 894, 908): `AgentPOService.get_agent`
(agent.py 231) is `def get_agent(self, user_id: str, id: str)`, with
both parameters required, so argument binding fails before the body
runs.  (CPython quotes the parameter name and, from 3.10 on, prefixes
the class name; nothing proved depends on the exact text.) -/
def get_agent_TypeError : String :=
  "get_agent() missing 1 required positional argument: id"

/-- The first node the agent-building loop of `execute_workflow`
(service.py 775–777) tries to resolve: the first node of type `"agent"`
with a truthy `agentId`.  At that node the source calls
`agent_service.get_agent(node.agentId)` and raises the `TypeError`
above; when no such node exists, `agents` stays empty. -/
def first_agent_node (nodes : List OrchestrationNode) : Option OrchestrationNode :=
  nodes.find? fun node =>
    node.type = "agent" && node.agentId.getD "" ≠ ""

/-- `orchestration.taskPriorities.get(node_id, 0)` (service.py 796). -/
def taskPriority (ps : List (String × Int)) (nid : String) : Int :=
  (((ps.find? fun e => decide (e.1 = nid)).map (·.2)).getD 0)

/-- The descending priority order used by
`node_order.sort(key=..., reverse=True)` (service.py 794–798).  Python's
stable descending sort keeps declaration order among equal priorities;
`insertionSort` with this relation inserts each element before the
later-listed elements of lower-or-equal priority, which is exactly
that. -/
def prioGE (ps : List (String × Int)) (a b : String) : Prop :=
  taskPriority ps b ≤ taskPriority ps a

instance (ps : List (String × Int)) : DecidableRel (prioGE ps) := fun a b =>
  inferInstanceAs (Decidable (taskPriority ps b ≤ taskPriority ps a))

/-- The sorted `node_order` (service.py 793–798): unchanged when
`taskPriorities` is `None` or the empty dict (Python falsy), otherwise
stably sorted by descending priority.  In the source this sort is dead
code: the building loop above it raises the get_agent `TypeError` before
`node_order` is ever non-trivial (see `execute_workflow`). -/
def workflow_node_order (cfg : OrchestrationConfig) (order : List String) : List String :=
  match cfg.taskPriorities with
  | none => order
  | some ps => if ps = [] then order else order.insertionSort (prioGE ps)

/-- The sequential loop of `execute_workflow` (service.py 800–839),
returning the pair `(workflow_results, execution_order)` built up to
the first failing node, or the propagated `CancelledError` (which
`except Exception` does not catch).  A node whose invocation raises is
recorded with status `"failed"` and result `"Error: " + str(e)`, and the
loop `break`s; a successful node is recorded with status `"completed"`
and its output becomes the next node's input.  `time k` stands for the
`str(time.time())` taken at the k-th invocation.  In the source this
loop is unreachable for the same reason as the sort above; it is kept
here as the faithful translation of those lines. -/
def run_workflow_nodes (agentIds : List String)
    (invoke : String → String → InvokeResult) (cancelSet : Bool)
    (time : Nat → String) :
    List String → String → Nat →
      Except String (List (String × WNodeResult) × List String)
  | [], _, _ => .ok ([], [])
  | nid :: rest, input, k =>
    if nid ∈ agentIds then
      if cancelSet then .error "Workflow execution cancelled"
      else
        match invoke nid input with
        | .ok r =>
          match run_workflow_nodes agentIds invoke cancelSet time rest r (k + 1) with
          | .ok (res, ord) => .ok ((nid, ⟨r, time k, "completed"⟩) :: res, nid :: ord)
          | .error e => .error e
        | .raises m => .ok ([(nid, ⟨"Error: " ++ m, time k, "failed"⟩)], [nid])
    else run_workflow_nodes agentIds invoke cancelSet time rest input k

/-- The dict returned by `execute_workflow` (service.py 871–876);
`type` is the constant `"workflow"`. -/
structure WorkflowReturn where
  rtype : String
  agents_count : Nat
  execution_order : List String
  results : List (String × WNodeResult)
  deriving DecidableEq

/-- `execute_workflow` (service.py 763–876) as the source actually
behaves.  The building loop (775–788) walks the nodes; at the first node
of type `"agent"` with a truthy `agentId` it calls
`agent_service.get_agent(node.agentId)` — one argument for the
two-parameter `AgentPOService.get_agent` (agent.py 231) — which raises
`TypeError` out of the executor before any agent is built, any node
runs, or anything is stored.  When no node qualifies, `agents` stays
empty and line 791 raises
`ValueError("No valid agents found in orchestration")`.  The priority
sort, the sequential loop and the normalizer call (793–869, modelled
above as `workflow_node_order` / `run_workflow_nodes`) are therefore
never reached, and the function never returns a `WorkflowReturn`. -/
def execute_workflow (s : ServiceState) (execution : OrchestrationExecution)
    (cfg : OrchestrationConfig) : ServiceState × Except String WorkflowReturn :=
  match first_agent_node cfg.nodes with
  | some _ => (s, .error get_agent_TypeError)
  | none => (s, .error "No valid agents found in orchestration")

/-! ## Topology executor: agents as tools (service.py 878–980) -/

/-- The dict returned by `execute_agents_as_tools` (service.py 972–977)
with the nested `agents_as_tools_result` flattened into it; `type` is
the constant `"agents_as_tools"`. -/
structure AatReturn where
  rtype : String
  orchestrator_agent : String
  tool_agents_count : Nat
  orchestrator_result : String
  tool_agents_used : List String
  execution_time : String
  deriving DecidableEq

/-- `execute_agents_as_tools` (service.py 878–980) as the source
actually behaves.  When `orchestration.orchestratorAgent` is falsy
(`None` or `""`), line 890 raises
`ValueError("No orchestrator agent specified for agents-as-tools
orchestration")`.  Otherwise line 894 calls
`agent_service.get_agent(orchestrator_agent_id)` — one argument for the
two-parameter `AgentPOService.get_agent` (agent.py 231) — which raises
`TypeError` unconditionally.  Either way the executor raises before any
tool agent is built, before the orchestrator is resolved, and before
anything is invoked or stored; the not-found check (896), the
tool-building loop (899–917) and the invocation/normalization path
(919–977) are dead code, and the function never returns an
`AatReturn`. -/
def execute_agents_as_tools (s : ServiceState) (execution : OrchestrationExecution)
    (cfg : OrchestrationConfig) : ServiceState × Except String AatReturn :=
  let oid := (cfg.orchestratorAgent.getD "")
  if oid = "" then
    (s, .error "No orchestrator agent specified for agents-as-tools orchestration")
  else
    (s, .error get_agent_TypeError)

/-! ## Store lemmas -/

/-- An execution record visible to its owner: the chat table resolves
`(user_id, execution_id)` to an orchestration-type record whose own
key fields agree with the lookup key. -/
def visibleOrch (t : ChatTable) (user_id execution_id : String) (r : ChatRecord) : Prop :=
  get_chat_record t user_id execution_id = some r ∧
  r.record_type = "orchestration" ∧ r.user_id = user_id ∧ r.id = execution_id

instance (t : ChatTable) (u e : String) (r : ChatRecord) :
    Decidable (visibleOrch t u e r) :=
  inferInstanceAs (Decidable (_ ∧ _ ∧ _ ∧ _))

theorem table_get_put_self (t : ChatTable) (k : String × String) (r : ChatRecord) :
    table_get (table_put t k r) k = some r := by
  induction t with
  | nil => simp [table_put, table_get]
  | cons x xs ih =>
    rcases eq_or_ne x.1 k with h | h
    · simp [table_put, h, table_get]
    · simpa [table_put, h, table_get, List.find?_cons] using ih

theorem get_chat_record_add_self (t : ChatTable) (r : ChatRecord) (u e : String)
    (hu : r.user_id = u) (he : r.id = e) :
    get_chat_record (add_chat_record t r) u e = some r := by
  subst hu he
  simp [get_chat_record, add_chat_record, table_get_put_self]

@[simp]
theorem updatedRecord_id (r : ChatRecord) (st : String) (kw : UpdateKwargs) :
    (updatedRecord r st kw).id = r.id := rfl

@[simp]
theorem updatedRecord_user_id (r : ChatRecord) (st : String) (kw : UpdateKwargs) :
    (updatedRecord r st kw).user_id = r.user_id := rfl

@[simp]
theorem updatedRecord_record_type (r : ChatRecord) (st : String) (kw : UpdateKwargs) :
    (updatedRecord r st kw).record_type = r.record_type := rfl

@[simp]
theorem updatedRecord_status (r : ChatRecord) (st : String) (kw : UpdateKwargs) :
    (updatedRecord r st kw).status = some st := rfl

@[simp]
theorem updatedRecord_end_time (r : ChatRecord) (st : String) (kw : UpdateKwargs) :
    (updatedRecord r st kw).end_time = kw.endTime.orElse fun _ => r.end_time := rfl

@[simp]
theorem updatedRecord_error (r : ChatRecord) (st : String) (kw : UpdateKwargs) :
    (updatedRecord r st kw).error = kw.errorMessage.orElse fun _ => r.error := rfl

/-- Componentwise description of `update_execution_status`: the chat
table after the call. -/
@[simp]
theorem update_chat_table (s : ServiceState) (e st u : String) (kw : UpdateKwargs) :
    (update_execution_status s e st u kw).1.chat_table =
      (match get_chat_record s.chat_table u e with
        | none => s.chat_table
        | some r =>
          if r.record_type = "orchestration"
          then add_chat_record s.chat_table (updatedRecord r st kw)
          else s.chat_table) := by
  unfold update_execution_status
  cases get_chat_record s.chat_table u e with
  | none => rfl
  | some r => by_cases h : r.record_type = "orchestration" <;> simp [h]

/-- Componentwise description of `update_execution_status`: the
returned success flag. -/
@[simp]
theorem update_snd (s : ServiceState) (e st u : String) (kw : UpdateKwargs) :
    (update_execution_status s e st u kw).2 =
      (match get_chat_record s.chat_table u e with
        | none => false
        | some r => decide (r.record_type = "orchestration")) := by
  unfold update_execution_status
  cases get_chat_record s.chat_table u e with
  | none => rfl
  | some r => by_cases h : r.record_type = "orchestration" <;> simp [h]

/-- Componentwise description of `update_execution_status`: the
history of status writes. -/
@[simp]
theorem update_status_writes (s : ServiceState) (e st u : String) (kw : UpdateKwargs) :
    (update_execution_status s e st u kw).1.status_writes =
      s.status_writes ++
        (match get_chat_record s.chat_table u e with
          | none => []
          | some r =>
            if r.record_type = "orchestration"
            then [⟨e, st, kw.errorMessage⟩] else []) := by
  unfold update_execution_status
  cases get_chat_record s.chat_table u e with
  | none => simp
  | some r => by_cases h : r.record_type = "orchestration" <;> simp [h]

@[simp]
theorem update_running_tasks (s : ServiceState) (e st u : String) (kw : UpdateKwargs) :
    (update_execution_status s e st u kw).1.running_tasks = s.running_tasks := by
  unfold update_execution_status
  cases get_chat_record s.chat_table u e with
  | none => rfl
  | some r => by_cases h : r.record_type ≠ "orchestration" <;> simp [h]

@[simp]
theorem update_cancellation_events (s : ServiceState) (e st u : String) (kw : UpdateKwargs) :
    (update_execution_status s e st u kw).1.cancellation_events = s.cancellation_events := by
  unfold update_execution_status
  cases get_chat_record s.chat_table u e with
  | none => rfl
  | some r => by_cases h : r.record_type ≠ "orchestration" <;> simp [h]

@[simp]
theorem update_responses (s : ServiceState) (e st u : String) (kw : UpdateKwargs) :
    (update_execution_status s e st u kw).1.responses = s.responses := by
  unfold update_execution_status
  cases get_chat_record s.chat_table u e with
  | none => rfl
  | some r => by_cases h : r.record_type ≠ "orchestration" <;> simp [h]

theorem lookupFlag_removeKey (l : List (String × Bool)) (k : String) :
    lookupFlag (removeKey l k) k = none := by
  have : List.find? (fun e => decide (e.1 = k)) (removeKey l k) = none := by
    rw [List.find?_eq_none]
    intro x hx
    simp only [removeKey, List.mem_filter, decide_eq_true_eq] at hx
    simpa using hx.2
  simp [lookupFlag, this]

/-- What `stop_execution` does for a visible orchestration record: it
returns `true` and the stored record becomes the rebuilt one with
`status="failed"`, `errorMessage="Execution stopped by user"`,
`endTime=now` — independent of the registries' contents. -/
theorem stop_execution_spec (s : ServiceState) (u e now : String) (r : ChatRecord)
    (h : visibleOrch s.chat_table u e r) :
    (stop_execution s e u now).2 = true ∧
    get_chat_record (stop_execution s e u now).1.chat_table u e =
      some (updatedRecord r "failed"
        { endTime := some now, errorMessage := some "Execution stopped by user" }) := by
  obtain ⟨h1, h2, h3, h4⟩ := h
  unfold stop_execution
  simp only [get_execution, h1, chat_record_to_execution, h2, ne_eq, not_true_eq_false,
    if_false, ite_false]
  split_ifs <;> simp [h1, h2, h3, h4, get_chat_record_add_self]

/-- Branch description of `execute_orchestration` when the cancellation
event wins the race: result `raisedCancelled`, the record rewritten
twice (the handler's `"Execution cancelled"` write on top of the
branch's `"Execution cancelled by user"` write), three status writes. -/
theorem execute_orchestration_cancel_spec (s : ServiceState) (ex : OrchestrationExecution)
    (cfg : OrchestrationConfig) (outcome : TaskOutcome) (now : String) (r : ChatRecord)
    (h : visibleOrch s.chat_table ex.userId ex.id r) (htype : cfg.type ∈ supportedTypes) :
    (execute_orchestration s ex cfg outcome true now).2 = .raisedCancelled ∧
    get_chat_record (execute_orchestration s ex cfg outcome true now).1.chat_table
        ex.userId ex.id =
      some (updatedRecord (updatedRecord (updatedRecord r "running" {}) "failed"
        { endTime := some now, errorMessage := some "Execution cancelled by user" }) "failed"
        { endTime := some now, errorMessage := some "Execution cancelled" }) ∧
    (execute_orchestration s ex cfg outcome true now).1.status_writes =
      s.status_writes ++ [⟨ex.id, "running", none⟩,
        ⟨ex.id, "failed", some "Execution cancelled by user"⟩,
        ⟨ex.id, "failed", some "Execution cancelled"⟩] := by
  obtain ⟨h1, h2, h3, h4⟩ := h
  unfold execute_orchestration
  simp [htype, h1, h2, h3, h4, get_chat_record_add_self, cleanup_execution]

/-- Branch description of `execute_orchestration` when the task raises
an ordinary exception with message `m`. -/
theorem execute_orchestration_raises_spec (s : ServiceState) (ex : OrchestrationExecution)
    (cfg : OrchestrationConfig) (m now : String) (r : ChatRecord)
    (h : visibleOrch s.chat_table ex.userId ex.id r) (htype : cfg.type ∈ supportedTypes) :
    (execute_orchestration s ex cfg (.raises m) false now).2 = .raisedExn m ∧
    get_chat_record (execute_orchestration s ex cfg (.raises m) false now).1.chat_table
        ex.userId ex.id =
      some (updatedRecord (updatedRecord r "running" {}) "failed"
        { endTime := some now, errorMessage := some m }) ∧
    (execute_orchestration s ex cfg (.raises m) false now).1.status_writes =
      s.status_writes ++ [⟨ex.id, "running", none⟩, ⟨ex.id, "failed", some m⟩] := by
  obtain ⟨h1, h2, h3, h4⟩ := h
  unfold execute_orchestration
  simp [htype, h1, h2, h3, h4, get_chat_record_add_self, cleanup_execution]

/-- Branch description of `execute_orchestration` when the task
completes with results. -/
theorem execute_orchestration_completes_spec (s : ServiceState) (ex : OrchestrationExecution)
    (cfg : OrchestrationConfig) (res : PyVal) (now : String) (r : ChatRecord)
    (h : visibleOrch s.chat_table ex.userId ex.id r) (htype : cfg.type ∈ supportedTypes) :
    (execute_orchestration s ex cfg (.completes res) false now).2 = .ok res ∧
    get_chat_record (execute_orchestration s ex cfg (.completes res) false now).1.chat_table
        ex.userId ex.id =
      some (updatedRecord (updatedRecord r "running" {}) "completed"
        { endTime := some now, results := some res }) ∧
    (execute_orchestration s ex cfg (.completes res) false now).1.status_writes =
      s.status_writes ++ [⟨ex.id, "running", none⟩, ⟨ex.id, "completed", none⟩] := by
  obtain ⟨h1, h2, h3, h4⟩ := h
  unfold execute_orchestration
  simp [htype, h1, h2, h3, h4, get_chat_record_add_self, cleanup_execution]

/-- Branch description of `execute_orchestration` when the task itself
raises `CancelledError` without the event being set. -/
theorem execute_orchestration_taskcancel_spec (s : ServiceState) (ex : OrchestrationExecution)
    (cfg : OrchestrationConfig) (now : String) (r : ChatRecord)
    (h : visibleOrch s.chat_table ex.userId ex.id r) (htype : cfg.type ∈ supportedTypes) :
    (execute_orchestration s ex cfg .cancelled false now).2 = .raisedCancelled ∧
    (execute_orchestration s ex cfg .cancelled false now).1.status_writes =
      s.status_writes ++ [⟨ex.id, "running", none⟩,
        ⟨ex.id, "failed", some "Execution cancelled"⟩] := by
  obtain ⟨h1, h2, h3, h4⟩ := h
  unfold execute_orchestration
  simp [htype, h1, h2, h3, h4, get_chat_record_add_self, cleanup_execution]

/-- Branch description of `execute_orchestration` on an unsupported
orchestration type. -/
theorem execute_orchestration_badtype_spec (s : ServiceState) (ex : OrchestrationExecution)
    (cfg : OrchestrationConfig) (outcome : TaskOutcome) (cancelSet : Bool) (now : String)
    (r : ChatRecord) (h : visibleOrch s.chat_table ex.userId ex.id r)
    (htype : cfg.type ∉ supportedTypes) :
    (execute_orchestration s ex cfg outcome cancelSet now).2 =
      .raisedExn ("Unsupported orchestration type: " ++ cfg.type) ∧
    (execute_orchestration s ex cfg outcome cancelSet now).1.status_writes =
      s.status_writes ++ [⟨ex.id, "running", none⟩,
        ⟨ex.id, "failed", some ("Unsupported orchestration type: " ++ cfg.type)⟩] := by
  obtain ⟨h1, h2, h3, h4⟩ := h
  unfold execute_orchestration
  simp [htype, h1, h2, h3, h4, get_chat_record_add_self, cleanup_execution]

/-! ## Sample fixtures for concrete witnesses and counterexamples -/

/-- A stored running orchestration record owned by `u1`. -/
def sampleRecord : ChatRecord :=
  { id := "e1", agent_id := "o1", user_id := "u1", user_message := "hello",
    create_time := "t0", record_type := "orchestration", status := some "running" }

/-- A service state whose table holds only `sampleRecord`. -/
def sampleRunningState : ServiceState := { chat_table := [(("u1", "e1"), sampleRecord)] }

/-- `sampleRecord` already finished with terminal status `completed`. -/
def sampleCompletedRecord : ChatRecord := { sampleRecord with status := some "completed" }

/-- A service state whose table holds only `sampleCompletedRecord`. -/
def sampleCompletedState : ServiceState :=
  { chat_table := [(("u1", "e1"), sampleCompletedRecord)] }

/-- The execution object matching `sampleRecord`. -/
def sampleExecution : OrchestrationExecution :=
  { id := "e1", orchestrationId := "o1", userId := "u1", status := "running",
    startTime := "t0", inputMessage := "hello" }

/-- A minimal workflow-typed configuration. -/
def sampleWorkflowConfig : OrchestrationConfig := { type := "workflow", nodes := [] }

/-! ## Claims C1 - C5 -/

/-- C1 (counterexample): run the supervisor against a visible running
record with the cancellation event set; the final persisted
`errorMessage` is `"Execution cancelled"`, not the claimed
`"Execution cancelled by user"`. -/
theorem claim_C1_counterexample :
    (get_chat_record (execute_orchestration sampleRunningState sampleExecution
        sampleWorkflowConfig (.completes .pynone) true "T").1.chat_table "u1" "e1").map
        ChatRecord.error = some (some "Execution cancelled") ∧
    some (some "Execution cancelled") ≠ some (some "Execution cancelled by user") := by
  decide

/-- C1 (amended): when the cancellation signal is observed first,
`execute_orchestration` cancels and awaits the task, writes
`status=failed`, `errorMessage="Execution cancelled by user"`,
`endTime=now` — and then the `CancelledError` it re-raises is caught by
the same call's `except asyncio.CancelledError` handler, which
overwrites `errorMessage` with `"Execution cancelled"`; the final
persisted record has `status="failed"`, `errorMessage="Execution
cancelled"`, `endTime` set. -/
theorem claim_C1 (s : ServiceState) (ex : OrchestrationExecution)
    (cfg : OrchestrationConfig) (outcome : TaskOutcome) (now : String) (r : ChatRecord)
    (h : visibleOrch s.chat_table ex.userId ex.id r) (htype : cfg.type ∈ supportedTypes) :
    (execute_orchestration s ex cfg outcome true now).2 = .raisedCancelled ∧
    (execute_orchestration s ex cfg outcome true now).1.status_writes =
      s.status_writes ++ [⟨ex.id, "running", none⟩,
        ⟨ex.id, "failed", some "Execution cancelled by user"⟩,
        ⟨ex.id, "failed", some "Execution cancelled"⟩] ∧
    ∃ rf : ChatRecord,
      get_chat_record (execute_orchestration s ex cfg outcome true now).1.chat_table
          ex.userId ex.id = some rf ∧
      rf.status = some "failed" ∧ rf.error = some "Execution cancelled" ∧
      rf.end_time = some now := by
  obtain ⟨hres, hrec, hwrites⟩ := execute_orchestration_cancel_spec s ex cfg outcome now r h htype
  exact ⟨hres, hwrites, _, hrec, by simp, by simp [Option.orElse], by simp [Option.orElse]⟩

/-- C1 (witness). -/
theorem claim_C1_witness :
    visibleOrch sampleRunningState.chat_table "u1" "e1" sampleRecord ∧
    (execute_orchestration sampleRunningState sampleExecution sampleWorkflowConfig
      (.completes .pynone) true "T").2 = .raisedCancelled :=
  ⟨by decide, (claim_C1 sampleRunningState sampleExecution sampleWorkflowConfig
    (.completes .pynone) "T" sampleRecord (by decide) (by decide)).1⟩

/-- C2: a task exception with message `m` is caught: the record is
written `status=failed`, `errorMessage=str(e)`, `endTime` set; the
background caller's handlers leave no unhandled fault (its fault slot is
`none` for every possible run). -/
theorem claim_C2 (s : ServiceState) (ex : OrchestrationExecution)
    (cfg : OrchestrationConfig) (m now : String) (r : ChatRecord)
    (h : visibleOrch s.chat_table ex.userId ex.id r) (htype : cfg.type ∈ supportedTypes) :
    (∃ rf : ChatRecord,
      get_chat_record (execute_orchestration s ex cfg (.raises m) false now).1.chat_table
          ex.userId ex.id = some rf ∧
      rf.status = some "failed" ∧ rf.error = some m ∧ rf.end_time = some now) ∧
    (∀ (s' : ServiceState) (ex' : OrchestrationExecution) (cfg' : OrchestrationConfig)
        (outcome : TaskOutcome) (cancelSet : Bool) (now' : String),
      (execute_orchestration_in_background s' ex' cfg' outcome cancelSet now').2 = none) ∧
    (execute_orchestration_in_background s ex cfg (.raises m) false now).1 =
      (execute_orchestration s ex cfg (.raises m) false now).1 := by
  obtain ⟨hres, hrec, -⟩ := execute_orchestration_raises_spec s ex cfg m now r h htype
  refine ⟨⟨_, hrec, by simp, by simp [Option.orElse], by simp [Option.orElse]⟩, ?_, ?_⟩
  · intro s' ex' cfg' outcome cancelSet now'
    unfold execute_orchestration_in_background
    rcases hE : execute_orchestration s' ex' cfg' outcome cancelSet now' with ⟨s'', o⟩
    cases o <;> simp
  · unfold execute_orchestration_in_background
    rcases hE : execute_orchestration s ex cfg (.raises m) false now with ⟨s'', o⟩
    cases o <;> simp

/-- C2 (witness). -/
theorem claim_C2_witness :
    visibleOrch sampleRunningState.chat_table "u1" "e1" sampleRecord ∧
    (execute_orchestration_in_background sampleRunningState sampleExecution
      sampleWorkflowConfig (.raises "boom") false "T").2 = none :=
  ⟨by decide, (claim_C2 sampleRunningState sampleExecution sampleWorkflowConfig
    "boom" "T" sampleRecord (by decide) (by decide)).2.1 sampleRunningState sampleExecution
    sampleWorkflowConfig (.raises "boom") false "T"⟩

/-- C3 (counterexample): `stop_execution` on an execution whose stored
status is already the terminal `completed` still writes `failed` — a
different status after a terminal one, contradicting the claim. -/
theorem claim_C3_counterexample :
    (get_chat_record sampleCompletedState.chat_table "u1" "e1").map ChatRecord.status =
      some (some "completed") ∧
    (stop_execution sampleCompletedState "e1" "u1" "T").2 = true ∧
    (get_chat_record (stop_execution sampleCompletedState "e1" "u1" "T").1.chat_table
        "u1" "e1").map ChatRecord.status = some (some "failed") := by
  decide

/-- C3 (amended): within one `execute_orchestration` run the persisted
status advances `running` → one terminal value and never changes to a
different value afterwards (the cancellation path repeats the same
`failed`), and `stop_execution` only ever writes `failed`; but
`stop_execution` never checks the stored status, so it can overwrite an
already-terminal `completed` record with `failed`. -/
theorem claim_C3 (s : ServiceState) (ex : OrchestrationExecution)
    (cfg : OrchestrationConfig) (outcome : TaskOutcome) (cancelSet : Bool) (now : String)
    (r : ChatRecord) (h : visibleOrch s.chat_table ex.userId ex.id r)
    (htype : cfg.type ∈ supportedTypes) :
    ((execute_orchestration s ex cfg outcome cancelSet now).1.status_writes =
        s.status_writes ++ [⟨ex.id, "running", none⟩, ⟨ex.id, "completed", none⟩] ∨
      (∃ msg : Option String,
        (execute_orchestration s ex cfg outcome cancelSet now).1.status_writes =
          s.status_writes ++ [⟨ex.id, "running", none⟩, ⟨ex.id, "failed", msg⟩]) ∨
      (execute_orchestration s ex cfg outcome cancelSet now).1.status_writes =
        s.status_writes ++ [⟨ex.id, "running", none⟩,
          ⟨ex.id, "failed", some "Execution cancelled by user"⟩,
          ⟨ex.id, "failed", some "Execution cancelled"⟩]) ∧
    (∀ (s' : ServiceState) (e' u' n' : String),
      (stop_execution s' e' u' n').1.status_writes = s'.status_writes ∨
      (stop_execution s' e' u' n').1.status_writes =
        s'.status_writes ++ [⟨e', "failed", some "Execution stopped by user"⟩]) := by
  constructor
  · cases cancelSet
    · cases outcome with
      | completes res =>
        exact Or.inl (execute_orchestration_completes_spec s ex cfg res now r h htype).2.2
      | raises m =>
        exact Or.inr (Or.inl ⟨some m,
          (execute_orchestration_raises_spec s ex cfg m now r h htype).2.2⟩)
      | cancelled =>
        exact Or.inr (Or.inl ⟨some "Execution cancelled",
          (execute_orchestration_taskcancel_spec s ex cfg now r h htype).2⟩)
    · exact Or.inr (Or.inr
        (execute_orchestration_cancel_spec s ex cfg outcome now r h htype).2.2)
  · intro s' e' u' n'
    unfold stop_execution
    cases hg : get_execution s' e' u' with
    | none => exact Or.inl rfl
    | some ex' =>
      simp only []
      split_ifs <;>
        (cases hr : get_chat_record s'.chat_table u' e' with
          | none => simp [hr]
          | some rr =>
            by_cases ht : rr.record_type = "orchestration" <;> simp [hr, ht])

/-- C3 (witness). -/
theorem claim_C3_witness :
    visibleOrch sampleRunningState.chat_table "u1" "e1" sampleRecord ∧
    ((stop_execution sampleRunningState "e1" "u1" "T").1.status_writes =
        sampleRunningState.status_writes ∨
      (stop_execution sampleRunningState "e1" "u1" "T").1.status_writes =
        sampleRunningState.status_writes ++
          [⟨"e1", "failed", some "Execution stopped by user"⟩]) :=
  ⟨by decide, (claim_C3 sampleRunningState sampleExecution sampleWorkflowConfig
    (.completes .pynone) false "T" sampleRecord (by decide) (by decide)).2
    sampleRunningState "e1" "u1" "T"⟩

/-- C4: for a visible execution record, `stop_execution` returns `true`
— exactly the status write's success — and the stored record ends
`failed` / `"Execution stopped by user"` / `endTime=now`, regardless of
the registries' contents (live task or not). -/
theorem claim_C4 (s : ServiceState) (u e now : String) (r : ChatRecord)
    (h : visibleOrch s.chat_table u e r) :
    (stop_execution s e u now).2 = true ∧
    ∃ rf : ChatRecord,
      get_chat_record (stop_execution s e u now).1.chat_table u e = some rf ∧
      rf.status = some "failed" ∧ rf.error = some "Execution stopped by user" ∧
      rf.end_time = some now := by
  obtain ⟨hb, hrec⟩ := stop_execution_spec s u e now r h
  exact ⟨hb, _, hrec, by simp, by simp [Option.orElse], by simp [Option.orElse]⟩

/-- C4 (witness). -/
theorem claim_C4_witness :
    visibleOrch sampleRunningState.chat_table "u1" "e1" sampleRecord ∧
    (stop_execution sampleRunningState "e1" "u1" "T").2 = true :=
  ⟨by decide, (claim_C4 sampleRunningState "u1" "e1" "T" sampleRecord (by decide)).1⟩

/-- C5: however `execute_orchestration` finishes — result, cancellation,
task failure, or the unsupported-type error — the execution id is absent
from both `running_tasks` and `cancellation_events` afterwards. -/
theorem claim_C5 (s : ServiceState) (ex : OrchestrationExecution)
    (cfg : OrchestrationConfig) (outcome : TaskOutcome) (cancelSet : Bool) (now : String) :
    lookupFlag (execute_orchestration s ex cfg outcome cancelSet now).1.running_tasks
      ex.id = none ∧
    lookupFlag (execute_orchestration s ex cfg outcome cancelSet now).1.cancellation_events
      ex.id = none := by
  unfold execute_orchestration
  by_cases htype : cfg.type ∈ supportedTypes <;> by_cases hc : cancelSet <;> cases outcome <;>
    simp [htype, hc, cleanup_execution, lookupFlag_removeKey]

/-! ## Claim C6 -/

instance [LinearOrder τ] : IsTotal (PendingMsg τ) msgLE := ⟨fun _ _ => le_total _ _⟩

instance [LinearOrder τ] : IsTrans (PendingMsg τ) msgLE := ⟨fun _ _ _ => le_trans⟩

/-- The collected messages are exactly the stripped, non-empty texts in
traversal order. -/
theorem collect_node_results_map_message [LinearOrder τ] (now : String)
    (results : List (NodeRes τ)) :
    (collect_node_results now results).map PendingMsg.message =
      results.flatMap fun nr => (nr.agent_texts.map pyStrip).filter (· ≠ "") := by
  induction results with
  | nil => rfl
  | cons nr rest ih =>
    simp only [collect_node_results, List.map_append, ih, List.flatMap_cons,
      List.append_cancel_right_eq]
    induction nr.agent_texts with
    | nil => rfl
    | cons t ts iht =>
      by_cases h : pyStrip t = "" <;>
        simpa [List.filterMap_cons, List.filter_cons, h] using iht

/-- Claim C6 -/
theorem claim_C6 :
    (∀ (τ : Type) (_ : LinearOrder τ) (s : ServiceState) (results : List (NodeRes τ))
        (e now : String),
      ((extract_and_store_multiagent_result s results e now).responses.drop
          s.responses.length).map ChatResponse.content =
        ((collect_node_results now results).insertionSort msgLE).map PendingMsg.message ∧
      List.Sorted msgLE ((collect_node_results now results).insertionSort msgLE) ∧
      (((extract_and_store_multiagent_result s results e now).responses.drop
          s.responses.length).map ChatResponse.content).Perm
        (results.flatMap fun nr => (nr.agent_texts.map pyStrip).filter (· ≠ "")) ∧
      ((extract_and_store_multiagent_result s results e now).responses.drop
          s.responses.length).map ChatResponse.resp_no =
        (List.range ((extract_and_store_multiagent_result s results e now).responses.drop
          s.responses.length).length).map fun i : Nat => (i : Int) + 1) ∧
    (extract_and_store_multiagent_result ({ chat_table := [] } : ServiceState)
        [⟨"a", ["x"], (3 : Int)⟩, ⟨"b", ["y"], 1⟩, ⟨"w", ["  "], 0⟩, ⟨"c", ["z"], 2⟩]
        "e1" "T").responses.map (fun c => (c.resp_no, c.content)) =
      [(1, "y"), (2, "z"), (3, "x")] := by
  constructor
  · intro τ _ s results e now
    have hdrop :
        (extract_and_store_multiagent_result s results e now).responses.drop
            s.responses.length =
          ((collect_node_results now results).insertionSort msgLE).enum.map fun p =>
            ChatResponse.mk e ((p.1 : Int) + 1) p.2.message p.2.create_time := by
      simp [extract_and_store_multiagent_result, List.drop_left]
    have hcontent :
        ((extract_and_store_multiagent_result s results e now).responses.drop
            s.responses.length).map ChatResponse.content =
          ((collect_node_results now results).insertionSort msgLE).map PendingMsg.message := by
      rw [hdrop, List.map_map]
      have : (ChatResponse.content ∘ fun p : Nat × PendingMsg τ =>
          ChatResponse.mk e ((p.1 : Int) + 1) p.2.message p.2.create_time) =
          (PendingMsg.message ∘ Prod.snd) := rfl
      rw [this, ← List.map_map, List.enum_map_snd]
    refine ⟨hcontent, List.sorted_insertionSort msgLE _, ?_, ?_⟩
    · rw [hcontent, ← collect_node_results_map_message now results]
      exact (List.perm_insertionSort msgLE _).map PendingMsg.message
    · rw [hdrop, List.map_map, List.length_map]
      have : (ChatResponse.resp_no ∘ fun p : Nat × PendingMsg τ =>
          ChatResponse.mk e ((p.1 : Int) + 1) p.2.message p.2.create_time) =
          ((fun i : Nat => (i : Int) + 1) ∘ Prod.fst) := rfl
      rw [this, ← List.map_map, List.enum_map_fst, List.enum_length]
  · decide

/-! ## Claim C7 -/

/-- With no cancellation, the workflow loop always returns a result
pair: the realized order is a prefix of the (agent-resolved) node
order, the result map's keys are exactly that order, every entry but
possibly the last is `completed`, and a `failed` entry can only be the
last one. -/
theorem run_workflow_nodes_spec (agentIds : List String)
    (invoke : String → String → InvokeResult) (time : Nat → String) :
    ∀ (order : List String) (input : String) (k : Nat),
    ∃ res ord,
      run_workflow_nodes agentIds invoke false time order input k = .ok (res, ord) ∧
      res.map Prod.fst = ord ∧
      ord <+: order.filter (fun nid => nid ∈ agentIds) ∧
      (∀ p ∈ res.dropLast, p.2.status = "completed") ∧
      (∀ p ∈ res, p.2.status = "failed" → res.getLast? = some p) := by
  intro order
  induction order with
  | nil =>
    intro input k
    exact ⟨[], [], rfl, rfl, List.nil_prefix, by simp, by simp⟩
  | cons nid rest ih =>
    intro input k
    by_cases hmem : nid ∈ agentIds
    · cases hinv : invoke nid input with
      | ok r =>
        obtain ⟨res', ord', heq, hmap, hpre, hdrop, hlast⟩ := ih r (k + 1)
        refine ⟨(nid, ⟨r, time k, "completed"⟩) :: res', nid :: ord', ?_, ?_, ?_, ?_, ?_⟩
        · simp [run_workflow_nodes, hmem, hinv, heq]
        · simp [hmap]
        · obtain ⟨t, ht⟩ := hpre
          exact ⟨t, by simp [List.filter_cons, hmem, ht]⟩
        · intro p hp
          cases res' with
          | nil => simp at hp
          | cons y ys =>
            rcases (List.mem_cons).1 (by simpa [List.dropLast] using hp) with h | h
            · simp [h]
            · exact hdrop p (by simpa [List.dropLast] using h)
        · intro p hp hfail
          rcases List.mem_cons.1 hp with h | h
          · subst h; simp at hfail
          · have := hlast p h hfail
            cases res' with
            | nil => simp at h
            | cons y ys => simpa [List.getLast?_cons_cons] using this
      | raises m =>
        refine ⟨[(nid, ⟨"Error: " ++ m, time k, "failed"⟩)], [nid], ?_, rfl, ?_, ?_, ?_⟩
        · simp [run_workflow_nodes, hmem, hinv]
        · exact ⟨List.filter (fun x => decide (x ∈ agentIds)) rest,
            by simp [List.filter_cons, hmem]⟩
        · simp
        · intro p hp _
          simp only [List.mem_singleton] at hp
          simp [hp]
    · obtain ⟨res', ord', heq, hmap, hpre, hdrop, hlast⟩ := ih input k
      refine ⟨res', ord', ?_, hmap, ?_, hdrop, hlast⟩
      · simpa [run_workflow_nodes, hmem] using heq
      · simpa [List.filter_cons, hmem] using hpre

instance {ε α : Type} [DecidableEq ε] [DecidableEq α] : DecidableEq (Except ε α) := fun x y =>
  match x, y with
  | .ok a, .ok b =>
    if h : a = b then .isTrue (by rw [h]) else .isFalse fun hc => h (by injection hc)
  | .error a, .error b =>
    if h : a = b then .isTrue (by rw [h]) else .isFalse fun hc => h (by injection hc)
  | .ok _, .error _ => .isFalse fun hc => Except.noConfusion hc
  | .error _, .ok _ => .isFalse fun hc => Except.noConfusion hc

/-- A service state with an empty table. -/
def sampleEmptyState : ServiceState := { chat_table := [] }

/-- An agent-typed workflow node. -/
def wfNode (i a : String) : OrchestrationNode :=
  { id := i, type := "agent", name := i, agentId := some a }

/-- A three-node workflow definition. -/
def wfConfig3 : OrchestrationConfig :=
  { type := "workflow", nodes := [wfNode "n1" "a1", wfNode "n2" "a2", wfNode "n3" "a3"] }

/-- C7 (code bug): the workflow executor cannot exhibit the claimed
behavior.  On any definition with an agent node — in particular the
3-node scenario — it raises the get_agent `TypeError` out of the
building loop before a single node runs, with nothing recorded and the
state untouched; with no agent node it raises the `ValueError`.  It
never returns a result dict, so the per-node fail-fast result map of the
claim is unreachable (the loop that would produce it is modelled by
`run_workflow_nodes` above). -/
theorem claim_C7 :
    execute_workflow sampleEmptyState sampleExecution wfConfig3 =
      (sampleEmptyState, .error get_agent_TypeError) ∧
    execute_workflow sampleEmptyState sampleExecution sampleWorkflowConfig =
      (sampleEmptyState, .error "No valid agents found in orchestration") ∧
    (∀ (s : ServiceState) (ex : OrchestrationExecution) (cfg : OrchestrationConfig),
      (execute_workflow s ex cfg).1 = s) := by
  refine ⟨by decide, by decide, ?_⟩
  intro s ex cfg
  unfold execute_workflow
  cases first_agent_node cfg.nodes <;> rfl

/-! ## Claims C8 - C10 -/

instance (ps : List (String × Int)) : IsTotal String (prioGE ps) :=
  ⟨fun _ _ => le_total _ _⟩

instance (ps : List (String × Int)) : IsTrans String (prioGE ps) :=
  ⟨fun _ _ _ h1 h2 => le_trans h2 h1⟩

/-- Stability of the priority sort: among nodes of equal priority the
declaration order is preserved. -/
theorem insertionSort_prioGE_filter (ps : List (String × Int)) (order : List String)
    (p : Int) :
    (order.insertionSort (prioGE ps)).filter (fun nid => taskPriority ps nid = p) =
      order.filter (fun nid => taskPriority ps nid = p) := by
  have hpair : (order.filter (fun nid => taskPriority ps nid = p)).Pairwise (prioGE ps) := by
    refine List.Pairwise.imp_of_mem ?_ (List.pairwise_of_forall_mem_list fun a ha b hb => True.intro)
    intro a b ha hb _
    have ha' := (List.mem_filter.1 ha).2
    have hb' := (List.mem_filter.1 hb).2
    simp only [decide_eq_true_eq] at ha' hb'
    unfold prioGE
    rw [ha', hb']
  have hsub : List.Sublist (order.filter (fun nid => taskPriority ps nid = p))
      (order.insertionSort (prioGE ps)) :=
    List.sublist_insertionSort hpair (List.filter_sublist order)
  have hsub2 : List.Sublist (order.filter (fun nid => taskPriority ps nid = p))
      ((order.insertionSort (prioGE ps)).filter (fun nid => taskPriority ps nid = p)) := by
    have := hsub.filter (fun nid => decide (taskPriority ps nid = p))
    rw [List.filter_filter] at this
    simpa only [Bool.and_self] using this
  have hperm : ((order.insertionSort (prioGE ps)).filter
      (fun nid => taskPriority ps nid = p)).Perm
      (order.filter (fun nid => taskPriority ps nid = p)) :=
    (List.perm_insertionSort (prioGE ps) order).filter _
  exact (hsub2.eq_of_length hperm.length_eq.symm).symm

/-- Two-node workflow, declaration order `n1, n2`, priorities `{n2:5, n1:1}`. -/
def wfConfigP12 : OrchestrationConfig :=
  { type := "workflow", nodes := [wfNode "n1" "a1", wfNode "n2" "a2"],
    taskPriorities := some [("n2", 5), ("n1", 1)] }

/-- Two-node workflow, declaration order `n2, n1`, priorities `{n2:5, n1:1}`. -/
def wfConfigP21 : OrchestrationConfig :=
  { type := "workflow", nodes := [wfNode "n2" "a2", wfNode "n1" "a1"],
    taskPriorities := some [("n2", 5), ("n1", 1)] }

/-- C8 (code bug): the two-node priority scenario never runs.  Both
declaration orders of the `{n2:5, n1:1}` workflow raise the get_agent
`TypeError` out of the building loop before any node is resolved, so
the claimed run order `[n2, n1]` is unobservable; the stable descending
sort the source would apply (`workflow_node_order`, service.py 793–798)
does order the nodes `[n2, n1]` from either declaration order, but that
code is unreachable. -/
theorem claim_C8 :
    execute_workflow sampleEmptyState sampleExecution wfConfigP12 =
      (sampleEmptyState, .error get_agent_TypeError) ∧
    execute_workflow sampleEmptyState sampleExecution wfConfigP21 =
      (sampleEmptyState, .error get_agent_TypeError) ∧
    workflow_node_order wfConfigP12 ["n1", "n2"] = ["n2", "n1"] ∧
    workflow_node_order wfConfigP21 ["n2", "n1"] = ["n2", "n1"] := by
  decide

/-- Agents-as-tools definition whose orchestrator id `X` appears nowhere
among the nodes (neither as a node id nor as an agent id). -/
def aatConfigX : OrchestrationConfig :=
  { type := "agents_as_tools", nodes := [wfNode "n1" "a1"], orchestratorAgent := some "X" }

/-- C9: `execute_agents_as_tools` fails fast — raising before invoking
any agent, with the state untouched — when no orchestrator agent is
specified (the `ValueError` at service.py 890 for a falsy
`orchestratorAgent`), and when the specified orchestrator id is not
found among the definition's nodes: for any truthy id the one-argument
`get_agent` call at service.py 894 raises `TypeError` before any agent
is built or invoked, which covers that case (and every other truthy
id). -/
theorem claim_C9 (s : ServiceState) (ex : OrchestrationExecution)
    (cfg : OrchestrationConfig) :
    (cfg.orchestratorAgent.getD "" = "" →
      execute_agents_as_tools s ex cfg =
        (s, .error "No orchestrator agent specified for agents-as-tools orchestration")) ∧
    (∀ oid : String, cfg.orchestratorAgent = some oid → oid ≠ "" →
      (∀ n ∈ cfg.nodes, n.id ≠ oid ∧ n.agentId ≠ some oid) →
      execute_agents_as_tools s ex cfg = (s, .error get_agent_TypeError)) := by
  constructor
  · intro h
    simp [execute_agents_as_tools, h]
  · intro oid hoid hne _
    simp [execute_agents_as_tools, hoid, hne]

/-- C9 (witness). -/
theorem claim_C9_witness :
    (aatConfigX.orchestratorAgent = some "X" ∧ "X" ≠ "" ∧
      (∀ n ∈ aatConfigX.nodes, n.id ≠ "X" ∧ n.agentId ≠ some "X")) ∧
    execute_agents_as_tools sampleEmptyState sampleExecution aatConfigX =
      (sampleEmptyState, .error get_agent_TypeError) :=
  ⟨⟨by decide, by decide, by decide⟩,
    (claim_C9 sampleEmptyState sampleExecution aatConfigX).2 "X" (by decide) (by decide)
      (by decide)⟩

/-- The sample JSON-like value used to witness the round trip: a dict of
a float and a list mixing every other primitive. -/
def sampleJson : PyVal :=
  .dict (.cons "a" (.float (3 / 2))
    (.cons "b" (.list (.cons (.int 1) (.cons (.str "x")
      (.cons (.boolean true) (.cons .pynone (.cons (.float (1 / 3)) .nil))))))
      .nil))

/-- Claim C10 -/
theorem claim_C10 (v : PyVal) (h : jsonLike v = true) :
    convert_decimals_to_float (convert_floats_to_decimal v) = v :=
  convert_roundtrip_val v h

/-- C10 (witness). -/
theorem claim_C10_witness :
    jsonLike sampleJson = true ∧
    convert_decimals_to_float (convert_floats_to_decimal sampleJson) = sampleJson :=
  ⟨by decide, claim_C10 sampleJson (by decide)⟩

end AgentX
